import Mathlib

/-!
# Patr chat client — verification of the conversation/message-delivery model

Shallow embedding of the Patr direct-messaging client's core logic:
the data model (`types.ts`), the Firestore-backed service layer
(`services/firebaseService.ts`), the Gemini reply service
(`services/geminiService.ts`, shipped unnamed in this snapshot), the send
orchestration in `App.tsx`, and the sidebar ordering (`components/Sidebar.tsx`).

Conventions of the embedding:
* JavaScript `Date.now()` is modelled by an explicit clock stream
  `clock : Nat → Nat` together with a read counter carried in the system
  state; each `Date.now()` call reads `clock i` for the next index `i`.
  Any real execution corresponds to some such stream.
* A rejected promise from a Firestore call is modelled by a failure flag
  supplied by the environment; a step that rejects performs none of its
  own writes but keeps the writes of earlier awaited steps.
* `console.error`/`console.warn` calls append a tag to an error log;
  `alert` is a boolean in the result of the orchestration.
-/

namespace Patr

/-! ## Data model (`src/types.ts`) -/

/-- Delivery status of a message: `'sending' | 'sent' | 'delivered' | 'read'`. -/
inductive MsgStatus
  | sending
  | sent
  | delivered
  | read
deriving DecidableEq, Repr

/-- `User` from `types.ts`. -/
structure User where
  id : String
  username : String
  name : String
  avatar : String
  about : Option String := none
  isOnline : Bool := true
  lastSeen : Option String := none
deriving DecidableEq, Repr

/-- `Message` from `types.ts`.  The optional document id is assigned by the
store and never read by the logic under verification, so it is omitted;
`isSystem` defaults to `false` as the optional flag does in the source. -/
structure Message where
  conversationId : String
  senderId : String
  text : String
  timestamp : Nat
  status : MsgStatus
  isSystem : Bool := false
deriving DecidableEq, Repr

/-- Conversation type tag `'private' | 'group'` (`private` is a Lean keyword,
hence `privateChat`). -/
inductive ConvType
  | privateChat
  | group
deriving DecidableEq, Repr

/-- `Conversation` from `types.ts` as held in App state (the shape produced by
`subscribeToConversations`).  The optional `messages`, `isTyping` and
`themeColor` fields are never read by the logic under verification. -/
structure Conversation where
  id : String
  participantIds : List String
  participants : List User
  lastMessage : Option Message := none
  unreadCount : Nat := 0
  themeColor : Option String := none
  personaPrompt : Option String := none
  ctype : ConvType := .privateChat
deriving DecidableEq, Repr

/-! ## Store model (Firestore collections) -/

/-- A document of the `conversations` collection together with its `messages`
subcollection (in insertion order, as produced by `addDoc`).  `createdAt` is
the server-resolved `serverTimestamp()` sentinel. -/
structure ConvDoc where
  id : String
  participantIds : List String
  participants : List User
  ctype : ConvType := .privateChat
  personaPrompt : Option String := none
  lastMessage : Option Message := none
  lastMessageTimestamp : Option Nat := none
  createdAt : Option Nat := none
  messages : List Message := []
deriving DecidableEq, Repr

/-- The document store: the `conversations` collection (with message
subcollections) and the `users` collection. -/
structure Store where
  conversations : List ConvDoc := []
  users : List User := []
deriving DecidableEq, Repr

/-- System state threaded through the effectful code: the store, the number of
`Date.now()` reads performed so far, and the log of `console.error` tags. -/
structure Sys where
  store : Store := {}
  clockReads : Nat := 0
  errorLog : List String := []
deriving DecidableEq, Repr

/-- One `Date.now()` call: read the clock stream at the current index and
advance the index. -/
def now (clock : Nat → Nat) (s : Sys) : Nat × Sys :=
  (clock s.clockReads, { s with clockReads := s.clockReads + 1 })

/-! ## String helpers (JS `toLowerCase().includes(...)` and truthiness) -/

/-- `List` prefix test on characters (executable). -/
def isPrefixList : List Char → List Char → Bool
  | [], _ => true
  | _ :: _, [] => false
  | c :: cs, d :: ds => c = d && isPrefixList cs ds

/-- Substring occurrence on character lists: does `needle` occur contiguously
in `haystack`?  Mirrors JS `String.prototype.includes`. -/
def containsSub (haystack needle : List Char) : Bool :=
  match haystack with
  | [] => needle.isEmpty
  | _ :: hs => isPrefixList needle haystack || containsSub hs needle

/-- JS `s.includes(sub)`. -/
def strContains (s sub : String) : Bool :=
  containsSub s.data sub.data

/-- JS `s.toLowerCase()` (character-wise lowercasing; usernames in this app
are ASCII).  Defined on the character list so that it evaluates by kernel
reduction. -/
def strToLower (s : String) : String :=
  String.mk (s.data.map Char.toLower)

/-- JS truthiness of an optional string (`undefined` and `""` are falsy). -/
def personaTruthy : Option String → Bool
  | none => false
  | some p => p != ""

/-! ## Message dispatch (`firebaseService.ts`, `sendMessageToConversation`) -/

/-- Look up the document of conversation `cid` (Firestore document ids are
unique; `find?` models the point lookup). -/
def convDoc? (s : Sys) (cid : String) : Option ConvDoc :=
  s.store.conversations.find? (fun c => c.id == cid)

/-- `addDoc` into the `messages` subcollection of conversation `cid`:
append the message to that conversation's subcollection. -/
def addMessageDoc (cid : String) (m : Message) (st : Store) : Store :=
  { st with
    conversations := st.conversations.map
      (fun c => if c.id == cid then { c with messages := c.messages ++ [m] } else c) }

/-- `updateDoc` on conversation `cid` setting the denormalized
`lastMessage` / `lastMessageTimestamp` fields. -/
def updateConvSummary (cid : String) (m : Message) (t : Nat) (st : Store) : Store :=
  { st with
    conversations := st.conversations.map
      (fun c => if c.id == cid then
          { c with lastMessage := some m, lastMessageTimestamp := some t } else c) }

/-- Failure injection for one `sendMessageToConversation` call: whether the
`addDoc` of the message rejects, and whether the `updateDoc` of the
conversation summary rejects. -/
structure SendFail where
  addFails : Bool := false
  updateFails : Bool := false
deriving DecidableEq, Repr

/-- Result of an awaited effectful step: `ok = false` models a rejected
promise; `sys` is the state after whatever writes did happen. -/
structure StepRes where
  ok : Bool
  sys : Sys
deriving DecidableEq, Repr

/-- `sendMessageToConversation(conversationId, message)`:
1. `addDoc` the message with its `timestamp` overridden by `Date.now()`
   (the argument object is evaluated before the call, so the clock is read
   even if the write then rejects);
2. `updateDoc` the conversation with `lastMessage: message` (the caller's
   object, original timestamp) and `lastMessageTimestamp: Date.now()`. -/
def sendMessageToConversation (fl : SendFail) (clock : Nat → Nat)
    (conversationId : String) (message : Message) (s0 : Sys) : StepRes :=
  let (t1, s1) := now clock s0
  let persisted : Message := { message with timestamp := t1 }
  if fl.addFails then ⟨false, s1⟩
  else
    let s2 := { s1 with store := addMessageDoc conversationId persisted s1.store }
    let (t2, s3) := now clock s2
    if fl.updateFails then ⟨false, s3⟩
    else ⟨true, { s3 with store := updateConvSummary conversationId message t2 s3.store }⟩

/-! ## Reply generation (`geminiService.ts`, `generateReply`) -/

/-- Outcome of the Gemini API call for one `generateReply` invocation:
success with the response text, a thrown error (network, quota, ...), or a
response whose `text` field is absent. -/
inductive GenOutcome
  | ok (text : String)
  | apiError
  | malformed
deriving DecidableEq, Repr

/-- The hard-coded fallback returned by `generateReply`'s `catch` branch. -/
def fallbackReplyText : String :=
  "Sorry, I can't reply right now. (Network Error)"

/-- `generateReply`: the whole body is wrapped in `try/catch`.  On success it
returns `result.text || ""`; on any thrown error it logs `"Gemini API Error"`
and returns the fallback text — it never rejects.  Returns the text together
with whether the catch branch logged. -/
def generateReply (outcome : GenOutcome) (_conversationId : String)
    (_history : List Message) (_lastUserMessage : String)
    (_personaPrompt : String) (_currentUserId : String) : String × Bool :=
  match outcome with
  | .ok t => (t, false)
  | .malformed => ("", false)
  | .apiError => (fallbackReplyText, true)

/-! ## Send orchestration (`App.tsx`, `handleSendMessage`) -/

/-- The message object built by `handleSendMessage` before dispatch:
`{ conversationId, senderId, text, timestamp: Date.now(), status: 'sent' }`. -/
def appNewMessage (activeConvId : String) (currentUser : User)
    (text : String) (t : Nat) : Message :=
  { conversationId := activeConvId
    senderId := currentUser.id
    text := text
    timestamp := t
    status := .sent }

/-- The other participant: `conversation.participants.find(p => p.id !== currentUser.id)`. -/
def otherParticipant (conversation : Conversation) (currentUserId : String) : Option User :=
  conversation.participants.find? (fun p => p.id != currentUserId)

/-- The `isAI` heuristic of `handleSendMessage`:
`otherUser?.username.toLowerCase().includes('gemini') ||
 otherUser?.username.toLowerCase().includes('bot') ||
 conversation.personaPrompt` (truthiness of the whole expression). -/
def isAIConv (conversation : Conversation) (currentUserId : String) : Bool :=
  (match otherParticipant conversation currentUserId with
   | some u =>
       strContains (strToLower u.username) "gemini"
         || strContains (strToLower u.username) "bot"
   | none => false)
  || personaTruthy conversation.personaPrompt

/-- The generic fallback persona string
`` `You are ${otherUser?.name}, a cool person on this chat app.` ``
(JS interpolates `undefined` when there is no other participant). -/
def defaultPersona (otherUser : Option User) : String :=
  "You are " ++ (match otherUser with | some u => u.name | none => "undefined")
    ++ ", a cool person on this chat app."

/-- `conversation.personaPrompt || defaultPersona` (JS `||` on a possibly
undefined / empty string). -/
def personaArg (personaPrompt : Option String) (otherUser : Option User) : String :=
  match personaPrompt with
  | some p => if p != "" then p else defaultPersona otherUser
  | none => defaultPersona otherUser

/-- Failure injection for one `handleSendMessage` run. -/
structure SendEnv where
  userSend : SendFail := {}
  genOutcome : GenOutcome := .ok ""
  replySend : SendFail := {}
deriving DecidableEq, Repr

/-- Observable outcome of `handleSendMessage`: final state, whether the
outer catch ran `alert("Failed to send message. ...")`, whether
`generateReply` was invoked, and whether the inner catch logged `"AI Error"`. -/
structure HandleRes where
  sys : Sys
  alerted : Bool
  aiInvoked : Bool
  aiErrorLogged : Bool
deriving DecidableEq, Repr

/-- `handleSendMessage(text)` from `App.tsx` (guards on a current user and an
active conversation id already passed): build the message, dispatch it, and
on success run the auto-reply logic inside its own `try/catch`. -/
def handleSendMessage (env : SendEnv) (clock : Nat → Nat)
    (conversations : List Conversation) (activeConvId : String)
    (currentUser : User) (text : String) (s0 : Sys) : HandleRes :=
  let (t0, s1) := now clock s0
  let newMessage := appNewMessage activeConvId currentUser text t0
  let r := sendMessageToConversation env.userSend clock activeConvId newMessage s1
  if !r.ok then
    -- outer catch: console.error("Send message error", e); alert(...)
    ⟨{ r.sys with errorLog := r.sys.errorLog ++ ["Send message error"] }, true, false, false⟩
  else
    match conversations.find? (fun c => c.id == activeConvId) with
    | none => ⟨r.sys, false, false, false⟩
    | some conversation =>
      let otherUser := otherParticipant conversation currentUser.id
      if isAIConv conversation currentUser.id then
        -- inner try
        let gr :=
          generateReply env.genOutcome activeConvId [] text
            (personaArg conversation.personaPrompt otherUser) currentUser.id
        let replyText := gr.1
        let gemLogged := gr.2
        let s2 :=
          if gemLogged then { r.sys with errorLog := r.sys.errorLog ++ ["Gemini API Error"] }
          else r.sys
        let (t2, s3) := now clock s2
        let replyMessage : Message :=
          { conversationId := activeConvId
            senderId := (otherUser.map User.id).getD "bot"
            text := replyText
            timestamp := t2
            status := .delivered }
        let r2 := sendMessageToConversation env.replySend clock activeConvId replyMessage s3
        if !r2.ok then
          -- inner catch: console.error("AI Error", error) — no alert, no rethrow
          ⟨{ r2.sys with errorLog := r2.sys.errorLog ++ ["AI Error"] }, false, true, true⟩
        else ⟨r2.sys, false, true, false⟩
      else ⟨r.sys, false, false, false⟩

/-! ## Live subscriptions (`firebaseService.ts`,
`subscribeToConversations` / `subscribeToMessages`)

`onSnapshot(q, onNext, onError)` delivers either a snapshot or an error to
the registered pair of handlers; the embedding models one delivery of the
event source to the handlers installed by the subscription. -/

/-- One event from the underlying live query: a (full) snapshot of documents,
or an error with its code. -/
inductive SnapEvent (α : Type)
  | snap (docs : List α)
  | err (code : String)
deriving DecidableEq, Repr

/-- What one event delivery produces: the list handed to the consumer's
callback, whether `console.error` ran, and whether the handler re-established
the subscription (the source installs no retry, so this records that). -/
structure SubDelivery (β : Type) where
  delivered : List β
  logged : Bool
  resubscribed : Bool
deriving DecidableEq, Repr

/-- The per-document mapping in `subscribeToConversations`'s snapshot handler:
`unreadCount` is hard-coded `0`, `type` defaults to `'private'`. -/
def mapConvDoc (d : ConvDoc) : Conversation :=
  { id := d.id
    participants := d.participants
    lastMessage := d.lastMessage
    unreadCount := 0
    ctype := d.ctype
    personaPrompt := d.personaPrompt
    participantIds := d.participantIds }

/-- The handler pair installed by `subscribeToConversations`: snapshots are
mapped document-wise and delivered whole; an error is logged
(`"Conversation subscription error:"`) and the callback receives `[]`. -/
def subscribeToConversationsOnEvent (ev : SnapEvent ConvDoc) : SubDelivery Conversation :=
  match ev with
  | .snap docs => { delivered := docs.map mapConvDoc, logged := false, resubscribed := false }
  | .err _ => { delivered := [], logged := true, resubscribed := false }

/-- The handler pair installed by `subscribeToMessages`: snapshots are
delivered whole; an error is logged (`"Message subscription error:"`) and the
callback receives `[]`. -/
def subscribeToMessagesOnEvent (ev : SnapEvent Message) : SubDelivery Message :=
  match ev with
  | .snap docs => { delivered := docs, logged := false, resubscribed := false }
  | .err _ => { delivered := [], logged := true, resubscribed := false }

/-! ## Conversation creation (`firebaseService.ts`, `createNewConversation`) -/

/-- `createNewConversation(currentUser, targetUser)`: builds the conversation
document (participant ids, embedded user records, type `'private'`,
`createdAt: serverTimestamp()` — modelled by the `serverTime` the store
resolves it to — and `lastMessageTimestamp: Date.now()`) and `addDoc`s it
unconditionally; `newId` is the store-generated document id.  Returns the new
id and the new state. -/
def createNewConversation (currentUser targetUser : User) (clock : Nat → Nat)
    (serverTime : Nat) (newId : String) (s : Sys) : String × Sys :=
  let (t, s1) := now clock s
  let conversationData : ConvDoc :=
    { id := newId
      participantIds := [currentUser.id, targetUser.id]
      participants := [currentUser, targetUser]
      ctype := .privateChat
      personaPrompt := none
      lastMessage := none
      lastMessageTimestamp := some t
      createdAt := some serverTime
      messages := [] }
  (newId,
   { s1 with store :=
      { s1.store with conversations := s1.store.conversations ++ [conversationData] } })

/-! ## Registration (`firebaseService.ts`, `signupWithUsername`) -/

/-- Errors surfaced by the auth / signup path.  `emailAlreadyInUse` is the
credential store's rejection of a duplicate email; `dbWriteFailed` is the
rethrown failure of the profile `setDoc`. -/
inductive AuthError
  | emailAlreadyInUse
  | dbWriteFailed
deriving DecidableEq, Repr

/-- The credential store: the set of registered emails (as a list). -/
structure AuthState where
  emails : List String := []
deriving DecidableEq, Repr

/-- `getEmail`: usernames are mapped to emails by lowercasing and appending
the fake domain `"@patr.app"`. -/
def getEmail (username : String) : String :=
  strToLower username ++ "@patr.app"

/-- Firebase Auth's `createUserWithEmailAndPassword` contract, as the source
relies on it: creating a credential for an email that already exists rejects
with `auth/email-already-in-use` and stores nothing; otherwise the credential
is stored and a fresh uid is returned (`newUid` models the generated uid). -/
def createUserWithEmailAndPassword (a : AuthState) (email : String)
    (newUid : String) : Except AuthError (AuthState × String) :=
  if email ∈ a.emails then .error .emailAlreadyInUse
  else .ok ({ emails := a.emails ++ [email] }, newUid)

/-- Outcome of `signupWithUsername`: the returned value or thrown error,
plus the post-state of the credential store and of the `users` collection. -/
structure SignupRes where
  result : Except AuthError User
  auth : AuthState
  users : List User
deriving Repr

/-- `signupWithUsername(username, password, name)`: derive the email, create
the credential (this is where a duplicate handle rejects), build the profile
record, and `setDoc` it into the `users` collection; a `setDoc` failure is
rethrown (`setDocFails` injects it).  `nowIso` models
`new Date().toISOString()`. -/
def signupWithUsername (username _password nm : String) (newUid : String)
    (nowIso : String) (setDocFails : Bool) (a : AuthState) (users : List User) :
    SignupRes :=
  let email := getEmail username
  match createUserWithEmailAndPassword a email newUid with
  | .error e => ⟨.error e, a, users⟩
  | .ok (a2, uid) =>
    let avatarUrl := "https://api.dicebear.com/7.x/avataaars/svg?seed=" ++ username
    let newUser : User :=
      { id := uid
        username := username
        name := nm
        avatar := avatarUrl
        about := some "Hey there! I'm using Patr."
        isOnline := true
        lastSeen := some nowIso }
    if setDocFails then ⟨.error .dbWriteFailed, a2, users⟩
    else ⟨.ok newUser, a2, users ++ [newUser]⟩

/-! ## Sidebar ordering (`components/Sidebar.tsx`) -/

/-- The comparator key: `c.lastMessage?.timestamp || 0`. -/
def sortKeyTs (c : Conversation) : Nat :=
  (c.lastMessage.map Message.timestamp).getD 0

/-- The order used by the sidebar's comparator `(a, b) => tB - tA`:
`a` may come before `b` iff `b`'s key is at most `a`'s (descending). -/
def tsGE (a b : Conversation) : Prop :=
  sortKeyTs b ≤ sortKeyTs a

instance : DecidableRel tsGE := fun a b => Nat.decLe (sortKeyTs b) (sortKeyTs a)

instance : IsTotal Conversation tsGE := ⟨fun a b => Nat.le_total (sortKeyTs b) (sortKeyTs a)⟩

instance : IsTrans Conversation tsGE := ⟨fun _ _ _ h1 h2 => Nat.le_trans h2 h1⟩

/-- The sidebar's `[...conversations].sort((a, b) => tB - tA)`:
`Array.prototype.sort` is stable and this comparator orders by
`lastMessage?.timestamp || 0` descending, i.e. the stable sort under `tsGE`;
embedded as the (stable) insertion sort under that order. -/
def sidebarSort (conversations : List Conversation) : List Conversation :=
  conversations.insertionSort tsGE

/-! ## User directory (`firebaseService.ts`, `getAllUsers`) -/

/-- The `query(collection(db, "users"), limit(50))` read: the store returns
at most the first 50 user documents. -/
def queryUsersLimit50 (usersStore : List User) : List User :=
  usersStore.take 50

/-- `getAllUsers`: run the limited query inside `try/catch`; on any failure
log and return `[]`. -/
def getAllUsers (queryFails : Bool) (usersStore : List User) : List User :=
  if queryFails then [] else queryUsersLimit50 usersStore

/-! ## Concrete fixtures

Small concrete states used to witness the theorems below on executable
inputs. -/

/-- A demo sender. -/
def demoUser : User := { id := "u1", username := "alice", name := "Alice", avatar := "" }

/-- A demo counterpart whose handle matches the bot heuristic. -/
def demoBot : User := { id := "b1", username := "GeminiBot", name := "Gem", avatar := "" }

/-- A demo counterpart matching neither AI condition. -/
def demoPlainUser : User := { id := "p1", username := "carol", name := "Carol", avatar := "" }

/-- App-state conversation between `demoUser` and `demoBot` (no persona prompt;
AI-driven via the handle heuristic). -/
def demoConvAI : Conversation :=
  { id := "c1", participantIds := ["u1", "b1"], participants := [demoUser, demoBot] }

/-- App-state conversation between `demoUser` and `demoPlainUser` (not AI-driven). -/
def demoConvPlain : Conversation :=
  { id := "c0", participantIds := ["u1", "p1"], participants := [demoUser, demoPlainUser] }

/-- Store document for `demoConvAI`, initially with no messages. -/
def demoDocAI : ConvDoc :=
  { id := "c1", participantIds := ["u1", "b1"], participants := [demoUser, demoBot] }

/-- Store document for `demoConvPlain`, initially with no messages. -/
def demoDocPlain : ConvDoc :=
  { id := "c0", participantIds := ["u1", "p1"], participants := [demoUser, demoPlainUser] }

/-- System state holding only `demoDocAI`. -/
def demoSysAI : Sys := { store := { conversations := [demoDocAI] } }

/-- System state holding only `demoDocPlain`. -/
def demoSysPlain : Sys := { store := { conversations := [demoDocPlain] } }

end Patr

namespace Patr

/-! ## General lemmas about the store operations -/

/-- Updating the matching conversation document in place commutes with looking
it up, provided the update preserves the document id. -/
theorem find?_map_update (cid : String) (g : ConvDoc → ConvDoc)
    (hid : ∀ c, (g c).id = c.id) (l : List ConvDoc) :
    (l.map (fun c => if c.id == cid then g c else c)).find? (fun c => c.id == cid)
      = (l.find? (fun c => c.id == cid)).map g := by
  induction l with
  | nil => rfl
  | cons c l ih =>
    simp only [List.map_cons]
    by_cases h : c.id = cid
    · have hb : (c.id == cid) = true := by simpa using h
      have hgb : ((g c).id == cid) = true := by simpa [hid] using h
      rw [if_pos hb]
      simp only [List.find?_cons, hb, hgb]
      rfl
    · have hb : (c.id == cid) = false := by simpa using h
      rw [if_neg (by simp [hb])]
      simp only [List.find?_cons, hb]
      exact ih

/-- Effect of `addMessageDoc` on the lookup of the target conversation. -/
theorem find?_addMessageDoc (cid : String) (m : Message) (st : Store) :
    (addMessageDoc cid m st).conversations.find? (fun c => c.id == cid)
      = (st.conversations.find? (fun c => c.id == cid)).map
          (fun c => { c with messages := c.messages ++ [m] }) := by
  simpa [addMessageDoc] using
    find?_map_update cid (fun c => { c with messages := c.messages ++ [m] })
      (fun _ => rfl) st.conversations

/-- Effect of `updateConvSummary` on the lookup of the target conversation. -/
theorem find?_updateConvSummary (cid : String) (m : Message) (t : Nat) (st : Store) :
    (updateConvSummary cid m t st).conversations.find? (fun c => c.id == cid)
      = (st.conversations.find? (fun c => c.id == cid)).map
          (fun c => { c with lastMessage := some m, lastMessageTimestamp := some t }) := by
  simpa [updateConvSummary] using
    find?_map_update cid
      (fun c => { c with lastMessage := some m, lastMessageTimestamp := some t })
      (fun _ => rfl) st.conversations

/-- `sendMessageToConversation` with no injected failure: both writes happen,
the persisted copy's timestamp is the first clock read, the summary timestamp
the second, and the call resolves successfully. -/
theorem sendMessage_ok (clock : Nat → Nat) (cid : String) (message : Message) (s0 : Sys) :
    sendMessageToConversation {} clock cid message s0
      = ⟨true,
         { store := updateConvSummary cid message (clock (s0.clockReads + 1))
              (addMessageDoc cid { message with timestamp := clock s0.clockReads } s0.store),
           clockReads := s0.clockReads + 2,
           errorLog := s0.errorLog }⟩ := rfl

/-- `sendMessageToConversation` when the message `addDoc` rejects: nothing is
written (the clock was still read for the argument object). -/
theorem sendMessage_addFails (fl : SendFail) (clock : Nat → Nat) (cid : String)
    (message : Message) (s0 : Sys) (h : fl.addFails = true) :
    sendMessageToConversation fl clock cid message s0
      = ⟨false, { s0 with clockReads := s0.clockReads + 1 }⟩ := by
  obtain ⟨fa, fu⟩ := fl
  subst h
  rfl

/-- `sendMessageToConversation` when the summary `updateDoc` rejects: the
message write of step (a) is kept, the summary is untouched. -/
theorem sendMessage_updateFails (fl : SendFail) (clock : Nat → Nat) (cid : String)
    (message : Message) (s0 : Sys) (h1 : fl.addFails = false) (h2 : fl.updateFails = true) :
    sendMessageToConversation fl clock cid message s0
      = ⟨false,
         { store := addMessageDoc cid { message with timestamp := clock s0.clockReads } s0.store,
           clockReads := s0.clockReads + 2,
           errorLog := s0.errorLog }⟩ := by
  obtain ⟨fa, fu⟩ := fl
  subst h1; subst h2
  rfl

/-! ## General lemmas about `handleSendMessage` -/

/-- The failure alert fires exactly when one of the two dispatch writes of the
user's message rejects; nothing in the auto-reply block reaches the outer
catch. -/
theorem handle_alerted_eq (env : SendEnv) (clock : Nat → Nat)
    (convs : List Conversation) (cid : String) (user : User) (text : String) (s0 : Sys) :
    (handleSendMessage env clock convs cid user text s0).alerted
      = (env.userSend.addFails || env.userSend.updateFails) := by
  obtain ⟨⟨fa, fu⟩, go, rs⟩ := env
  cases fa
  · cases fu
    · simp only [handleSendMessage, now, sendMessage_ok, Bool.not_true, Bool.false_eq_true,
        if_false]
      cases hfind : convs.find? (fun c => c.id == cid) with
      | none => rfl
      | some conversation =>
        simp only
        split
        · split <;> split <;> rfl
        · rfl
    · rfl
  · rfl

/-- `generateReply` is invoked exactly when the user's dispatch succeeded and
the active conversation satisfies the `isAI` heuristic. -/
theorem autoReply_invoked_eq (env : SendEnv) (clock : Nat → Nat)
    (convs : List Conversation) (cid : String) (user : User) (text : String) (s0 : Sys)
    (c : Conversation) (hc : convs.find? (fun x => x.id == cid) = some c) :
    (handleSendMessage env clock convs cid user text s0).aiInvoked
      = (!env.userSend.addFails && !env.userSend.updateFails && isAIConv c user.id) := by
  obtain ⟨⟨fa, fu⟩, go, rs⟩ := env
  cases fa
  · cases fu
    · simp only [handleSendMessage, now, sendMessage_ok, Bool.not_true, Bool.false_eq_true,
        if_false]
      rw [hc]
      simp only [Bool.not_false, Bool.true_and]
      by_cases h : isAIConv c user.id
      · rw [if_pos h, h]
        split <;> split <;> rfl
      · rw [if_neg h, (by simpa using h : isAIConv c user.id = false)]
    · rfl
  · rfl

/-- Store-level effect of one failure-free `sendMessageToConversation` call on
the target conversation document. -/
theorem dispatch_effect (clock : Nat → Nat) (cid : String) (message : Message)
    (s0 : Sys) (d : ConvDoc) (hdoc : convDoc? s0 cid = some d) :
    (sendMessageToConversation {} clock cid message s0).ok = true
    ∧ convDoc? (sendMessageToConversation {} clock cid message s0).sys cid
        = some { d with
            messages := d.messages ++ [{ message with timestamp := clock s0.clockReads }],
            lastMessage := some message,
            lastMessageTimestamp := some (clock (s0.clockReads + 1)) } := by
  unfold convDoc? at hdoc
  constructor
  · rfl
  · show convDoc? _ cid = _
    unfold convDoc?
    rw [sendMessage_ok]
    show (updateConvSummary cid message (clock (s0.clockReads + 1))
        (addMessageDoc cid { message with timestamp := clock s0.clockReads } s0.store)).conversations.find?
        (fun c => c.id == cid) = _
    rw [find?_updateConvSummary, find?_addMessageDoc, hdoc]
    rfl

/-- State after a send whose message write succeeded but whose summary update
rejected: the persisted message remains, the summary fields are untouched. -/
theorem handle_updateFail_state (clock : Nat → Nat) (convs : List Conversation)
    (cid : String) (user : User) (text : String) (s0 : Sys)
    (go : GenOutcome) (rs : SendFail) (d : ConvDoc)
    (hdoc : convDoc? s0 cid = some d) :
    convDoc? (handleSendMessage ⟨⟨false, true⟩, go, rs⟩ clock convs cid user text s0).sys cid
      = some { d with messages := d.messages
          ++ [appNewMessage cid user text (clock (s0.clockReads + 1))] } := by
  unfold convDoc? at hdoc ⊢
  show (addMessageDoc cid
      { appNewMessage cid user text (clock s0.clockReads) with
          timestamp := clock (s0.clockReads + 1) }
      s0.store).conversations.find? (fun c => c.id == cid) = _
  rw [find?_addMessageDoc, hdoc]
  rfl

/-- Full state characterization of a send into an AI-driven conversation when
all four store writes succeed, for an arbitrary outcome of the Gemini call:
no alert, `generateReply` invoked, its catch-log appended exactly when the
call threw, and both the user's message and a reply message carrying
`generateReply`'s returned text appended to the conversation. -/
theorem handle_ai_ok_state (go : GenOutcome) (clock : Nat → Nat)
    (convs : List Conversation) (cid : String) (user : User) (text : String) (s0 : Sys)
    (c : Conversation) (d : ConvDoc)
    (hc : convs.find? (fun x => x.id == cid) = some c)
    (hAI : isAIConv c user.id = true)
    (hdoc : convDoc? s0 cid = some d) :
    (handleSendMessage ⟨{}, go, {}⟩ clock convs cid user text s0).alerted = false
    ∧ (handleSendMessage ⟨{}, go, {}⟩ clock convs cid user text s0).aiInvoked = true
    ∧ (handleSendMessage ⟨{}, go, {}⟩ clock convs cid user text s0).sys.errorLog
        = (if (generateReply go cid [] text
              (personaArg c.personaPrompt (otherParticipant c user.id)) user.id).2
           then s0.errorLog ++ ["Gemini API Error"] else s0.errorLog)
    ∧ convDoc? (handleSendMessage ⟨{}, go, {}⟩ clock convs cid user text s0).sys cid
        = some { d with
            messages := d.messages
              ++ [appNewMessage cid user text (clock (s0.clockReads + 1)),
                  { conversationId := cid
                    senderId := ((otherParticipant c user.id).map User.id).getD "bot"
                    text := (generateReply go cid [] text
                      (personaArg c.personaPrompt (otherParticipant c user.id)) user.id).1
                    timestamp := clock (s0.clockReads + 4)
                    status := MsgStatus.delivered }],
            lastMessage := some
              { conversationId := cid
                senderId := ((otherParticipant c user.id).map User.id).getD "bot"
                text := (generateReply go cid [] text
                  (personaArg c.personaPrompt (otherParticipant c user.id)) user.id).1
                timestamp := clock (s0.clockReads + 3)
                status := MsgStatus.delivered }
            lastMessageTimestamp := some (clock (s0.clockReads + 5)) } := by
  unfold convDoc? at hdoc
  cases go <;>
    (simp only [handleSendMessage, now, sendMessage_ok, generateReply, Bool.not_true,
       Bool.false_eq_true, if_false, if_true]
     rw [hc]
     simp only [if_pos hAI]
     refine ⟨?_, ?_, ?_, ?_⟩ <;> try trivial
     all_goals
       unfold convDoc?
     all_goals
       rw [find?_updateConvSummary, find?_addMessageDoc, find?_updateConvSummary,
          find?_addMessageDoc, hdoc]
     all_goals
       simp [List.append_assoc]
     all_goals
       rfl)

/-! ## Sidebar sort lemmas -/

/-- `orderedInsert` under `tsGE` preserves the sequence of elements having any
given sort key, putting the inserted element first among its key class (this
is the stability of the sidebar sort, key class by key class). -/
theorem filter_orderedInsert_key (a : Conversation) (k : Nat) (l : List Conversation) :
    (l.orderedInsert tsGE a).filter (fun c => sortKeyTs c == k)
      = if sortKeyTs a == k
          then a :: l.filter (fun c => sortKeyTs c == k)
          else l.filter (fun c => sortKeyTs c == k) := by
  induction l with
  | nil => simp [List.orderedInsert, List.filter_cons]
  | cons b l ih =>
    simp only [List.orderedInsert]
    by_cases h : tsGE a b
    · rw [if_pos h]
      simp [List.filter_cons]
    · rw [if_neg h]
      have hlt : sortKeyTs a < sortKeyTs b := lt_of_not_le h
      by_cases hk : sortKeyTs a = k
      · have hak : (sortKeyTs a == k) = true := by simpa using hk
        have hbk : (sortKeyTs b == k) = false := by
          simp only [beq_eq_false_iff_ne, ne_eq]
          omega
        simp [List.filter_cons, hak, hbk, ih]
      · have hak : (sortKeyTs a == k) = false := by simpa using hk
        simp [List.filter_cons, hak, ih]

/-- The insertion sort under `tsGE` keeps every key class in input order. -/
theorem filter_insertionSort_key (k : Nat) (l : List Conversation) :
    (l.insertionSort tsGE).filter (fun c => sortKeyTs c == k)
      = l.filter (fun c => sortKeyTs c == k) := by
  induction l with
  | nil => rfl
  | cons a l ih =>
    simp only [List.insertionSort]
    rw [filter_orderedInsert_key, ih, List.filter_cons]

end Patr

namespace Patr

/-! ## Claim theorems -/

/-- C1, counterexample: with the Gemini call failing (`apiError`) and every
store write succeeding, the conversation ends with TWO messages — the user's
"hi" and a persisted reply carrying the fallback text — refuting "no reply
message is produced: after the failure, exactly the user's own message exists
in the conversation and the auto-reply path persists nothing". -/
theorem genFailure_produces_fallback_reply_cex :
    (((convDoc? (handleSendMessage ⟨{}, .apiError, {}⟩ (fun i => i) [demoConvAI] "c1"
          demoUser "hi" demoSysAI).sys "c1").map ConvDoc.messages).getD []).map Message.text
        = ["hi", fallbackReplyText]
    ∧ ¬ ((((convDoc? (handleSendMessage ⟨{}, .apiError, {}⟩ (fun i => i) [demoConvAI] "c1"
          demoUser "hi" demoSysAI).sys "c1").map ConvDoc.messages).getD []).length = 1) :=
  ⟨by decide, by decide⟩

/-- C1, amended: for every send into an AI-driven conversation whose store
writes succeed, a failed generated-reply request is logged inside
`generateReply` (which returns the fallback text instead of throwing), and the
auto-reply path persists a reply message carrying that fallback text with
status "delivered" and updates the summary to it; a malformed response
likewise yields a persisted reply with empty text and no log; in both cases
the send reports success. -/
theorem genFailure_logs_and_persists_fallback_reply (clock : Nat → Nat)
    (convs : List Conversation) (cid : String) (user : User) (text : String) (s0 : Sys)
    (c : Conversation) (d : ConvDoc)
    (hc : convs.find? (fun x => x.id == cid) = some c)
    (hAI : isAIConv c user.id = true)
    (hdoc : convDoc? s0 cid = some d) :
    ((handleSendMessage ⟨{}, .apiError, {}⟩ clock convs cid user text s0).alerted = false
     ∧ (handleSendMessage ⟨{}, .apiError, {}⟩ clock convs cid user text s0).aiInvoked = true
     ∧ (handleSendMessage ⟨{}, .apiError, {}⟩ clock convs cid user text s0).sys.errorLog
         = s0.errorLog ++ ["Gemini API Error"]
     ∧ convDoc? (handleSendMessage ⟨{}, .apiError, {}⟩ clock convs cid user text s0).sys cid
         = some { d with
             messages := d.messages
               ++ [appNewMessage cid user text (clock (s0.clockReads + 1)),
                   { conversationId := cid
                     senderId := ((otherParticipant c user.id).map User.id).getD "bot"
                     text := fallbackReplyText
                     timestamp := clock (s0.clockReads + 4)
                     status := MsgStatus.delivered }]
             lastMessage := some
               { conversationId := cid
                 senderId := ((otherParticipant c user.id).map User.id).getD "bot"
                 text := fallbackReplyText
                 timestamp := clock (s0.clockReads + 3)
                 status := MsgStatus.delivered }
             lastMessageTimestamp := some (clock (s0.clockReads + 5)) })
    ∧ ((handleSendMessage ⟨{}, .malformed, {}⟩ clock convs cid user text s0).alerted = false
     ∧ (handleSendMessage ⟨{}, .malformed, {}⟩ clock convs cid user text s0).sys.errorLog
         = s0.errorLog
     ∧ convDoc? (handleSendMessage ⟨{}, .malformed, {}⟩ clock convs cid user text s0).sys cid
         = some { d with
             messages := d.messages
               ++ [appNewMessage cid user text (clock (s0.clockReads + 1)),
                   { conversationId := cid
                     senderId := ((otherParticipant c user.id).map User.id).getD "bot"
                     text := ""
                     timestamp := clock (s0.clockReads + 4)
                     status := MsgStatus.delivered }]
             lastMessage := some
               { conversationId := cid
                 senderId := ((otherParticipant c user.id).map User.id).getD "bot"
                 text := ""
                 timestamp := clock (s0.clockReads + 3)
                 status := MsgStatus.delivered }
             lastMessageTimestamp := some (clock (s0.clockReads + 5)) }) := by
  have ha := handle_ai_ok_state .apiError clock convs cid user text s0 c d hc hAI hdoc
  have hm := handle_ai_ok_state .malformed clock convs cid user text s0 c d hc hAI hdoc
  exact ⟨⟨ha.1, ha.2.1, ha.2.2.1, ha.2.2.2⟩, ⟨hm.1, hm.2.2.1, hm.2.2.2⟩⟩

/-- C1, witness: the amended theorem applied to the demo AI conversation. -/
theorem genFailure_logs_and_persists_fallback_reply_witness :
    ([demoConvAI].find? (fun x => x.id == "c1") = some demoConvAI)
    ∧ isAIConv demoConvAI demoUser.id = true
    ∧ convDoc? demoSysAI "c1" = some demoDocAI
    ∧ (handleSendMessage ⟨{}, .apiError, {}⟩ (fun i => i) [demoConvAI] "c1" demoUser "hi"
        demoSysAI).sys.errorLog = demoSysAI.errorLog ++ ["Gemini API Error"] :=
  ⟨by decide, by decide, by decide,
   (genFailure_logs_and_persists_fallback_reply (fun i => i) [demoConvAI] "c1" demoUser "hi"
      demoSysAI demoConvAI demoDocAI (by decide) (by decide) (by decide)).1.2.2.1⟩

/-- C2, counterexample: a concrete successful send (clock stream `i ↦ i`,
caller timestamp 0) persists the message with the dispatch-assigned write-time
timestamp 1, but sets the conversation's `lastMessage` summary to the caller's
object with timestamp 0 — so the summary is NOT "that persisted message". -/
theorem summary_not_persisted_message_cex :
    ((convDoc? (handleSendMessage {} (fun i => i) [demoConvPlain] "c0" demoUser "hi"
        demoSysPlain).sys "c0").map ConvDoc.messages).getD []
        = [appNewMessage "c0" demoUser "hi" 1]
    ∧ (convDoc? (handleSendMessage {} (fun i => i) [demoConvPlain] "c0" demoUser "hi"
        demoSysPlain).sys "c0").bind ConvDoc.lastMessage
        = some (appNewMessage "c0" demoUser "hi" 0)
    ∧ ¬ ((convDoc? (handleSendMessage {} (fun i => i) [demoConvPlain] "c0" demoUser "hi"
          demoSysPlain).sys "c0").bind ConvDoc.lastMessage
        = (((convDoc? (handleSendMessage {} (fun i => i) [demoConvPlain] "c0" demoUser "hi"
          demoSysPlain).sys "c0").map ConvDoc.messages).getD []).getLast?) :=
  ⟨by decide, by decide, by decide⟩

/-- C2, amended: for every successful dispatch, (a) the persisted record's
timestamp is assigned at write time by the dispatch path (the clock value read
there, regardless of the caller's timestamp) and the status is the caller's
("sent" on the UI send path); (b) the conversation's `lastMessage` summary is
set to the caller-supplied message object (keeping the caller's timestamp, so
in general not the persisted record) and the activity timestamp to a fresh
write-time clock value. -/
theorem dispatch_persists_and_updates_summary (clock : Nat → Nat) (cid : String)
    (message : Message) (s0 : Sys) (d : ConvDoc) (user : User) (text : String) (t : Nat)
    (hdoc : convDoc? s0 cid = some d) :
    (sendMessageToConversation {} clock cid message s0).ok = true
    ∧ convDoc? (sendMessageToConversation {} clock cid message s0).sys cid
        = some { d with
            messages := d.messages ++ [{ message with timestamp := clock s0.clockReads }]
            lastMessage := some message
            lastMessageTimestamp := some (clock (s0.clockReads + 1)) }
    ∧ (appNewMessage cid user text t).status = MsgStatus.sent := by
  have h := dispatch_effect clock cid message s0 d hdoc
  exact ⟨h.1, h.2, rfl⟩

/-- C2, witness: the amended theorem applied to the demo plain conversation. -/
theorem dispatch_persists_and_updates_summary_witness :
    convDoc? demoSysPlain "c0" = some demoDocPlain
    ∧ (sendMessageToConversation {} (fun i => i) "c0"
        (appNewMessage "c0" demoUser "hi" 0) demoSysPlain).ok = true :=
  ⟨by decide,
   (dispatch_persists_and_updates_summary (fun i => i) "c0"
      (appNewMessage "c0" demoUser "hi" 0) demoSysPlain demoDocPlain demoUser "hi" 0
      (by decide)).1⟩

/-- C3: for every send whose active conversation is found, the auto-reply
orchestration is invoked exactly when the user's dispatch succeeded AND the
conversation's persona prompt is a non-empty string or the other participant's
lowercased handle contains "gemini" or "bot"; in particular, when neither
condition holds it is never invoked, whatever the environment does. -/
theorem autoReply_invoked_iff_ai_heuristic (env : SendEnv) (clock : Nat → Nat)
    (convs : List Conversation) (cid : String) (user : User) (text : String) (s0 : Sys)
    (c : Conversation) (hc : convs.find? (fun x => x.id == cid) = some c) :
    (handleSendMessage env clock convs cid user text s0).aiInvoked
      = (!env.userSend.addFails && !env.userSend.updateFails && isAIConv c user.id) :=
  autoReply_invoked_eq env clock convs cid user text s0 c hc

/-- C3, witness: invoked for the bot-handle conversation, not invoked for the
plain one. -/
theorem autoReply_invoked_iff_ai_heuristic_witness :
    ([demoConvAI].find? (fun x => x.id == "c1") = some demoConvAI)
    ∧ (handleSendMessage {} (fun i => i) [demoConvAI] "c1" demoUser "hi" demoSysAI).aiInvoked
        = true
    ∧ (handleSendMessage {} (fun i => i) [demoConvPlain] "c0" demoUser "hi"
        demoSysPlain).aiInvoked = false :=
  ⟨by decide,
   autoReply_invoked_iff_ai_heuristic {} (fun i => i) [demoConvAI] "c1" demoUser "hi"
     demoSysAI demoConvAI (by decide),
   autoReply_invoked_iff_ai_heuristic {} (fun i => i) [demoConvPlain] "c0" demoUser "hi"
     demoSysPlain demoConvPlain (by decide)⟩

/-- C4: when the persist-and-summary steps of the user's message succeed, the
send never surfaces a failure, whatever happens in the auto-reply path (reply
generation outcome and reply persistence failures are arbitrary here). -/
theorem autoReply_failure_not_send_failure (env : SendEnv) (clock : Nat → Nat)
    (convs : List Conversation) (cid : String) (user : User) (text : String) (s0 : Sys)
    (ha : env.userSend.addFails = false) (hu : env.userSend.updateFails = false) :
    (handleSendMessage env clock convs cid user text s0).alerted = false := by
  rw [handle_alerted_eq, ha, hu]
  rfl

/-- C4, witness: Gemini call fails AND the reply's own persist fails, yet no
send-failure alert. -/
theorem autoReply_failure_not_send_failure_witness :
    (({ genOutcome := .apiError, replySend := { addFails := true } } : SendEnv).userSend.addFails
        = false)
    ∧ (({ genOutcome := .apiError, replySend := { addFails := true } } : SendEnv).userSend.updateFails
        = false)
    ∧ (handleSendMessage { genOutcome := .apiError, replySend := { addFails := true } }
        (fun i => i) [demoConvAI] "c1" demoUser "hi" demoSysAI).alerted = false :=
  ⟨rfl, rfl,
   autoReply_failure_not_send_failure { genOutcome := .apiError, replySend := { addFails := true } }
     (fun i => i) [demoConvAI] "c1" demoUser "hi" demoSysAI rfl rfl⟩

/-- C5: the caller sees a send failure exactly when persisting the message or
updating the summary fails; and when the persist succeeded but the summary
update failed, the persisted message remains in the conversation (no
rollback; the summary fields stay untouched). -/
theorem send_failure_reporting_and_no_rollback (env : SendEnv) (clock : Nat → Nat)
    (convs : List Conversation) (cid : String) (user : User) (text : String) (s0 : Sys)
    (d : ConvDoc) (hdoc : convDoc? s0 cid = some d) :
    (handleSendMessage env clock convs cid user text s0).alerted
        = (env.userSend.addFails || env.userSend.updateFails)
    ∧ (env.userSend.addFails = false → env.userSend.updateFails = true →
        convDoc? (handleSendMessage env clock convs cid user text s0).sys cid
          = some { d with messages := d.messages
              ++ [appNewMessage cid user text (clock (s0.clockReads + 1))] }) := by
  constructor
  · exact handle_alerted_eq env clock convs cid user text s0
  · intro ha hu
    obtain ⟨⟨fa, fu⟩, go, rs⟩ := env
    simp only at ha hu
    subst ha; subst hu
    exact handle_updateFail_state clock convs cid user text s0 go rs d hdoc

/-- C5, witness: summary update fails — alert fires and the persisted message
is still there. -/
theorem send_failure_reporting_and_no_rollback_witness :
    convDoc? demoSysPlain "c0" = some demoDocPlain
    ∧ (handleSendMessage { userSend := { updateFails := true } } (fun i => i) [demoConvPlain]
        "c0" demoUser "hi" demoSysPlain).alerted = true
    ∧ convDoc? (handleSendMessage { userSend := { updateFails := true } } (fun i => i)
        [demoConvPlain] "c0" demoUser "hi" demoSysPlain).sys "c0"
        = some { demoDocPlain with messages := [appNewMessage "c0" demoUser "hi" 1] } :=
  ⟨by decide,
   (send_failure_reporting_and_no_rollback { userSend := { updateFails := true } } (fun i => i)
      [demoConvPlain] "c0" demoUser "hi" demoSysPlain demoDocPlain (by decide)).1,
   (send_failure_reporting_and_no_rollback { userSend := { updateFails := true } } (fun i => i)
      [demoConvPlain] "c0" demoUser "hi" demoSysPlain demoDocPlain (by decide)).2 rfl rfl⟩

/-- C6: for every error event on either live subscription, the consumer's
callback is invoked with the empty list, the error is logged, the handler does
not resubscribe (no retry) and returns normally (no propagation). -/
theorem subscription_error_fail_open (code1 code2 : String) :
    subscribeToConversationsOnEvent (SnapEvent.err code1)
        = { delivered := [], logged := true, resubscribed := false }
    ∧ subscribeToMessagesOnEvent (SnapEvent.err code2)
        = { delivered := [], logged := true, resubscribed := false } :=
  ⟨rfl, rfl⟩

/-- C7: `createNewConversation(A, B)` appends — for EVERY prior store state,
hence with no duplicate-pair check — one conversation document whose
participant id list is exactly `[A.id, B.id]` (as a set `{A.id, B.id}`), which
embeds both full user records, has type "private" and an empty last-message
summary. -/
theorem createConversation_shape_no_dup_check (A B : User) (clock : Nat → Nat)
    (serverTime : Nat) (newId : String) (s : Sys) :
    ∃ c : ConvDoc,
      (createNewConversation A B clock serverTime newId s).2.store.conversations
          = s.store.conversations ++ [c]
      ∧ c.participantIds = [A.id, B.id]
      ∧ (∀ x : String, x ∈ c.participantIds ↔ (x = A.id ∨ x = B.id))
      ∧ c.participants = [A, B]
      ∧ c.ctype = ConvType.privateChat
      ∧ c.lastMessage = none
      ∧ (createNewConversation A B clock serverTime newId s).2.store.conversations.length
          = s.store.conversations.length + 1 := by
  refine ⟨_, rfl, rfl, ?_, rfl, rfl, rfl, ?_⟩
  · intro x
    simp
  · simp [createNewConversation, now]

/-- C8: a registration whose handle resolves (lowercased, with the fake
domain) to an already-registered credential fails with
`AuthError.emailAlreadyInUse`, and neither the `users` collection nor the
credential store changes. -/
theorem signup_duplicate_handle_no_record (username password nm uid nowIso : String)
    (setDocFails : Bool) (a : AuthState) (users : List User)
    (hdup : getEmail username ∈ a.emails) :
    (signupWithUsername username password nm uid nowIso setDocFails a users).result
        = Except.error AuthError.emailAlreadyInUse
    ∧ (signupWithUsername username password nm uid nowIso setDocFails a users).users = users
    ∧ (signupWithUsername username password nm uid nowIso setDocFails a users).auth = a := by
  simp only [signupWithUsername, createUserWithEmailAndPassword]
  rw [if_pos hdup]
  exact ⟨rfl, rfl, rfl⟩

/-- C8, witness: registering "Bob" when "bob@patr.app" already exists. -/
theorem signup_duplicate_handle_no_record_witness :
    getEmail "Bob" ∈ ({ emails := ["bob@patr.app"] } : AuthState).emails
    ∧ (signupWithUsername "Bob" "pw" "Bobby" "u9" "t0" false
        { emails := ["bob@patr.app"] } []).users = [] :=
  ⟨by decide,
   (signup_duplicate_handle_no_record "Bob" "pw" "Bobby" "u9" "t0" false
      { emails := ["bob@patr.app"] } [] (by decide)).2.1⟩

/-- C9: the sidebar's displayed list is a permutation of the input, sorted by
`lastMessage?.timestamp || 0` descending, and stable — every sort-key class
appears in its original relative order; a conversation without a last message
has sort key 0. -/
theorem sidebar_sort_desc_stable (l : List Conversation) :
    (sidebarSort l).Perm l
    ∧ List.Sorted tsGE (sidebarSort l)
    ∧ (∀ k : Nat, (sidebarSort l).filter (fun c => sortKeyTs c == k)
        = l.filter (fun c => sortKeyTs c == k))
    ∧ (∀ (i : String) (pids : List String) (ps : List User) (uc : Nat)
        (tc pp : Option String) (ct : ConvType),
        sortKeyTs ⟨i, pids, ps, none, uc, tc, pp, ct⟩ = 0) :=
  ⟨List.perm_insertionSort tsGE l, List.sorted_insertionSort tsGE l,
   fun k => filter_insertionSort_key k l,
   fun _ _ _ _ _ _ _ => rfl⟩

/-- C10: `getAllUsers` returns at most 50 users, and returns the empty list
(rather than an error) whenever the underlying query fails. -/
theorem getAllUsers_limit50_fail_open :
    (∀ (queryFails : Bool) (usersStore : List User),
        (getAllUsers queryFails usersStore).length ≤ 50)
    ∧ (∀ usersStore : List User, getAllUsers true usersStore = []) := by
  constructor
  · intro q store
    cases q
    · simp [getAllUsers, queryUsersLimit50]
    · simp [getAllUsers]
  · intro store
    rfl

end Patr
